import Mathlib

/-!
Verification of the scrapebit-sdk request execution engine.

The definitions below are a shallow embedding of `src/utils/http.ts`
(class `HttpClient`), `src/utils/errors.ts` (the error hierarchy) and the
`Scrapebit` facade constructor.  JavaScript values that can flow through
the untyped parts of the code are modelled by an explicit `Json` type,
and the JavaScript truthiness-based `||` defaulting is modelled by
`jsOr` / `natOr` / `strOr`.  The retry loop of `HttpClient.request` is
modelled by the fuel-indexed `requestLoop`, where the fuel counts the
remaining iterations of `for (attempt = 0; attempt <= retries; attempt++)`;
the function also records the number of transport attempts performed and
the backoff delays slept, so that attempt-counting and backoff-timing
properties can be stated.
-/

/-- JSON values as produced by a successful `response.json()` call.
Numbers are modelled as integers (all numeric fields used by the engine
are integral). -/
inductive Json where
  | null
  | bool (b : Bool)
  | num (n : Int)
  | str (s : String)
  | arr (elems : List Json)
  | obj (fields : List (String × Json))
  deriving Repr

/-- Property access `data.key` on a decoded value: a present object field,
`none` otherwise (JavaScript `undefined`). -/
def Json.getField : Json → String → Option Json
  | .obj fields, key => (fields.find? (fun kv => kv.1 == key)).map (fun kv => kv.2)
  | _, _ => none

/-- JavaScript truthiness of a decoded JSON value. -/
def Json.truthy : Json → Bool
  | .null => false
  | .bool b => b
  | .num n => n != 0
  | .str s => s != ""
  | .arr _ => true
  | .obj _ => true

/-- `v || dflt` where `v` is a possibly-absent property: a present truthy
value wins, otherwise the default. -/
def jsOr (v : Option Json) (dflt : Json) : Json :=
  match v with
  | some x => if x.truthy then x else dflt
  | none => dflt

/-- `n || dflt` on an optional number field (absent and `0` are falsy). -/
def natOr (v : Option Nat) (dflt : Nat) : Nat :=
  match v with
  | some n => if n != 0 then n else dflt
  | none => dflt

/-- `s || dflt` on an optional string field (absent and `""` are falsy). -/
def strOr (v : Option String) (dflt : String) : String :=
  match v with
  | some s => if s != "" then s else dflt
  | none => dflt

/-- The JavaScript `in` operator applied to a decoded JSON value with a
string key.  It answers membership on objects, answers property lookup on
arrays (false for the non-index keys "success" and "data" used by the
engine), and throws a `TypeError` on the primitive values `null`,
booleans, numbers and strings. -/
def jsMem (key : String) : Json → Except Unit Bool
  | .obj fields => .ok (fields.any (fun kv => kv.1 == key))
  | .arr _ => .ok false
  | _ => .error ()

mutual

/-- JavaScript `String(v)` conversion, used by `parseInt` coercion. -/
def Json.jsToString : Json → String
  | .null => "null"
  | .bool b => if b then "true" else "false"
  | .num n => toString n
  | .str s => s
  | .arr elems => String.intercalate "," (jsToStringList elems)
  | .obj _ => "[object Object]"

/-- `String(v)` for each element of an array. -/
def jsToStringList : List Json → List String
  | [] => []
  | e :: rest => e.jsToString :: jsToStringList rest

end

/-- `parseInt(s, 10)`: skip leading whitespace, optional sign, then the
longest prefix of decimal digits; `none` models `NaN`. -/
def parseIntJS (s : String) : Option Int :=
  let t := s.trimLeft
  let signed : Int × String :=
    if t.startsWith "-" then (-1, t.drop 1)
    else if t.startsWith "+" then (1, t.drop 1)
    else (1, t)
  let digits := signed.2.takeWhile Char.isDigit
  if digits.isEmpty then none
  else some (signed.1 * (digits.toNat?.getD 0 : Nat))

/-- `parseInt(data.retryAfter as string, 10) || undefined` from
`handleErrorResponse`: `NaN` and `0` both collapse to `undefined`. -/
def parseRetryAfter (v : Option Json) : Option Int :=
  let parsed : Option Int :=
    match v with
    | none => none
    | some j => parseIntJS j.jsToString
  match parsed with
  | none => none
  | some k => if k = 0 then none else some k

/-- The error hierarchy of `src/utils/errors.ts`, one variant per class.
Fields whose runtime value flows in from a decoded body are typed `Json`;
fields that are always constructed from host strings are `String`. -/
inductive SdkError where
  | scrapebit (message : Json) (code : Json) (statusCode : Option Nat)
  | authentication (message : Json)
  | authorization (message : Json)
  | notFound (resource : String) (id : Option String)
  | validation (message : String) (field : Option String)
  | rateLimit (retryAfter : Option Int)
  | insufficientCredits (creditsRequired creditsRemaining : Json)
  | timeout (timeoutMs : Nat)
  | network (message : String)
  | server (statusCode : Nat) (message : Json)
  deriving Repr

/-- The `statusCode` property each subclass passes to the base class
constructor (`undefined` for `NetworkError` and the bare base class
default). -/
def SdkError.statusCode : SdkError → Option Nat
  | .scrapebit _ _ sc => sc
  | .authentication _ => some 401
  | .authorization _ => some 403
  | .notFound _ _ => some 404
  | .validation _ _ => some 400
  | .rateLimit _ => some 429
  | .insufficientCredits _ _ => some 402
  | .timeout _ => some 408
  | .network _ => none
  | .server sc _ => some sc

/-- A value thrown inside an attempt: either a structured SDK error, or a
raw `TypeError` escaping from the JavaScript runtime (the `in` operator
applied to a primitive decoded body). -/
inductive Thrown where
  | sdk (e : SdkError)
  | typeError
  deriving Repr

/-- An HTTP response as seen by `handleResponse`: status, status text and
the decoded JSON body (`none` when `response.json()` rejects). -/
structure Response where
  status : Nat
  statusText : String
  body : Option Json
  deriving Repr

/-- `response.ok` of the fetch API: status in `[200, 300)`. -/
def Response.ok (r : Response) : Bool :=
  200 ≤ r.status && r.status < 300

/-- `HttpClient.handleErrorResponse` (http.ts lines 192-225): classify a
non-ok status together with its decoded body into an `SdkError`.  The
`switch` is rendered as the equivalent chain of equality tests. -/
def handleErrorResponse (statusCode : Nat) (data : Json) : SdkError :=
  let message := jsOr (data.getField "error") (jsOr (data.getField "message") (.str "Unknown error"))
  let code := data.getField "code"
  if statusCode == 401 then .authentication message
  else if statusCode == 402 then
    .insufficientCredits (jsOr (data.getField "creditsRequired") (.num 1))
      (jsOr (data.getField "creditsRemaining") (.num 0))
  else if statusCode == 403 then .authorization message
  else if statusCode == 404 then .notFound "Resource" none
  else if statusCode == 429 then .rateLimit (parseRetryAfter (data.getField "retryAfter"))
  else if 500 ≤ statusCode then .server statusCode message
  else .scrapebit message (jsOr code (.str "API_ERROR")) (some statusCode)

/-- `HttpClient.handleResponse` (http.ts lines 163-187): decode, classify
failures, and unwrap the `success`/`data` envelope.  The `in` checks can
throw a `TypeError` when the decoded body is a primitive. -/
def handleResponse (r : Response) : Except Thrown Json :=
  match r.body with
  | none =>
    if !r.ok then
      .error (.sdk (.server r.status (.str ("HTTP " ++ toString r.status ++ ": " ++ r.statusText))))
    else
      .ok (.obj [])
  | some data =>
    if !r.ok then
      .error (.sdk (handleErrorResponse r.status data))
    else
      match jsMem "success" data with
      | .error _ => .error .typeError
      | .ok hasSuccess =>
        if hasSuccess then
          match jsMem "data" data with
          | .error _ => .error .typeError
          | .ok hasData =>
            if hasData then .ok ((data.getField "data").getD .null)
            else .ok data
        else .ok data

/-- The behaviour of one transport attempt, supplied by the environment:
`response` means `fetch` resolved, `abort` means the per-attempt timer
fired first (`AbortError`), `netFail` any other transport rejection. -/
inductive AttemptOutcome where
  | response (r : Response)
  | abort
  | netFail (message : String)
  deriving Repr

/-- One attempt of the loop body: `fetchWithTimeout` error translation
(http.ts lines 136-158) followed by `handleResponse`. -/
def attemptResult (timeoutMs : Nat) : AttemptOutcome → Except Thrown Json
  | .response r => handleResponse r
  | .abort => .error (.sdk (.timeout timeoutMs))
  | .netFail msg => .error (.sdk (.network msg))

/-- The retry guard at http.ts line 80:
`error instanceof ScrapebitError && error.statusCode && error.statusCode < 500`.
A missing (or zero, hence falsy) status code fails the guard, as does a
non-SDK exception such as a `TypeError`. -/
def isClientError : Thrown → Bool
  | .sdk e =>
    match e.statusCode with
    | some sc => sc != 0 && sc < 500
    | none => false
  | .typeError => false

/-- The outcome of a whole `request` call. -/
inductive RequestResult where
  | ok (value : Json)
  | err (e : SdkError)
  | jsError
  deriving Repr

/-- How a thrown value surfaces from `request`. -/
def Thrown.toResult : Thrown → RequestResult
  | .sdk e => .err e
  | .typeError => .jsError

/-- The observable trace of a `request` call: final outcome, number of
transport attempts performed, and the backoff delays slept in order. -/
structure ExecTrace where
  result : RequestResult
  attempts : Nat
  delays : List Nat
  deriving Repr

/-- The `ScrapebitConfig` options object (types/index.ts). -/
structure ScrapebitConfig where
  baseUrl : Option String := none
  timeout : Option Nat := none
  retries : Option Nat := none
  headers : Option (List (String × String)) := none
  deriving Repr, DecidableEq

/-- The `HttpClient` instance state after its constructor ran. -/
structure HttpClient where
  apiKey : String
  baseUrl : String
  timeout : Nat
  retries : Nat
  customHeaders : List (String × String)
  deriving Repr, DecidableEq

/-- The `HttpClient` constructor (http.ts lines 38-44): every config
field defaults through JavaScript `||`. -/
def HttpClient.create (apiKey : String) (config : ScrapebitConfig) : HttpClient :=
  { apiKey := apiKey
    baseUrl := strOr config.baseUrl "https://api.scrapebit.com/v1"
    timeout := natOr config.timeout 30000
    retries := natOr config.retries 3
    customHeaders := config.headers.getD [] }

/-- The attempt loop of `HttpClient.request` (http.ts lines 67-95).
`attempt` is the loop counter, the fuel is the number of loop iterations
still permitted (initially `retries + 1`), `lastError` the variable of
line 65, `made` the number of transport attempts already performed and
`delays` the backoff delays already slept.  The fuel-0 case is the fall
through after the loop (line 95), unreachable from `HttpClient.request`. -/
def requestLoop (retries timeoutMs : Nat) (server : Nat → AttemptOutcome) :
    Nat → Nat → Option Thrown → Nat → List Nat → ExecTrace
  | _, 0, lastError, made, delays =>
    { result :=
        match lastError with
        | some t => t.toResult
        | none => .err (.scrapebit (.str "Request failed after retries") (.str "SCRAPEBIT_ERROR") none)
      attempts := made
      delays := delays }
  | attempt, fuel + 1, _, made, delays =>
    match attemptResult timeoutMs (server attempt) with
    | .ok v => { result := .ok v, attempts := made + 1, delays := delays }
    | .error e =>
      if isClientError e then
        { result := e.toResult, attempts := made + 1, delays := delays }
      else if attempt == retries then
        { result := e.toResult, attempts := made + 1, delays := delays }
      else
        requestLoop retries timeoutMs server (attempt + 1) fuel (some e) (made + 1)
          (delays ++ [min (1000 * 2 ^ attempt) 10000])

/-- `HttpClient.request` (http.ts lines 49-96), abstracted over the
transport behaviour of each attempt.  The effective timeout is
`options.timeout || this.timeout`. -/
def HttpClient.request (c : HttpClient) (optTimeout : Option Nat) (server : Nat → AttemptOutcome) : ExecTrace :=
  requestLoop c.retries (natOr optTimeout c.timeout) server 0 (c.retries + 1) none 0 []

/-- A JavaScript value passed as the `apiKey` argument of the `Scrapebit`
facade constructor (the TypeScript annotation says `string`, but the
validation code guards against arbitrary runtime values). -/
inductive JsValue where
  | undef
  | null
  | bool (b : Bool)
  | num (n : Int)
  | str (s : String)
  deriving Repr, DecidableEq

/-- JavaScript truthiness of such a value. -/
def JsValue.truthy : JsValue → Bool
  | .undef => false
  | .null => false
  | .bool b => b
  | .num n => n != 0
  | .str s => s != ""

/-- `typeof apiKey === 'string'`. -/
def JsValue.isString : JsValue → Bool
  | .str _ => true
  | _ => false

/-- The underlying string of a string value (only reached after the
`isString` guard). -/
def JsValue.asString : JsValue → String
  | .str s => s
  | _ => ""

/-- The `Scrapebit` facade constructor: `if (!apiKey)` raises
`ValidationError('API key is required')`, then a non-string key raises
`ValidationError('API key must be a string')`, and only then is the
`HttpClient` engine instance created.  (The non-fatal `console.warn` for
keys without the expected prefix has no effect on the result and is not
modelled.)  An `Except.error` result carries no `HttpClient`, so no
engine instance exists on the failure paths. -/
def Scrapebit.create (apiKey : JsValue) (config : ScrapebitConfig) : Except SdkError HttpClient :=
  if !apiKey.truthy then .error (.validation "API key is required" none)
  else if !apiKey.isString then .error (.validation "API key must be a string" none)
  else .ok (HttpClient.create apiKey.asString config)

/-- The backoff delays `min(1000 * 2^a, 10000)` for `count` consecutive
attempt indices starting at `start`. -/
def backoffs (start count : Nat) : List Nat :=
  (List.range count).map (fun j => min (1000 * 2 ^ (start + j)) 10000)

theorem backoffs_succ (a k : Nat) :
    backoffs a (k + 1) = min (1000 * 2 ^ a) 10000 :: backoffs (a + 1) k := by
  simp only [backoffs, List.range_succ_eq_map, List.map_cons, Nat.add_zero, List.map_map]
  refine congrArg (fun l => _ :: l) ?_
  refine List.map_congr_left ?_
  intro j _
  have h : a + (j + 1) = a + 1 + j := by omega
  simp [Function.comp, Nat.succ_eq_add_one, h]

theorem requestLoop_ok_first (retries timeoutMs fuel made : Nat) (server : Nat → AttemptOutcome)
    (attempt : Nat) (lastErr : Option Thrown) (delays : List Nat) (v : Json)
    (h : attemptResult timeoutMs (server attempt) = .ok v) :
    requestLoop retries timeoutMs server attempt (fuel + 1) lastErr made delays =
      { result := .ok v, attempts := made + 1, delays := delays } := by
  simp [requestLoop, h]

theorem requestLoop_client_first (retries timeoutMs fuel made : Nat) (server : Nat → AttemptOutcome)
    (attempt : Nat) (lastErr : Option Thrown) (delays : List Nat) (e : Thrown)
    (h : attemptResult timeoutMs (server attempt) = .error e)
    (hc : isClientError e = true) :
    requestLoop retries timeoutMs server attempt (fuel + 1) lastErr made delays =
      { result := e.toResult, attempts := made + 1, delays := delays } := by
  simp [requestLoop, h, hc]

theorem requestLoop_retry_step (retries timeoutMs fuel made : Nat) (server : Nat → AttemptOutcome)
    (attempt : Nat) (lastErr : Option Thrown) (delays : List Nat) (e : Thrown)
    (h : attemptResult timeoutMs (server attempt) = .error e)
    (hnc : isClientError e = false) (hne : (attempt == retries) = false) :
    requestLoop retries timeoutMs server attempt (fuel + 1) lastErr made delays =
      requestLoop retries timeoutMs server (attempt + 1) fuel (some e) (made + 1)
        (delays ++ [min (1000 * 2 ^ attempt) 10000]) := by
  conv_lhs => rw [requestLoop]
  rw [h]
  simp only [hnc, hne, Bool.false_eq_true, if_false]

theorem requestLoop_retryable (timeoutMs : Nat) (server : Nat → AttemptOutcome) (e : Thrown)
    (hall : ∀ i, attemptResult timeoutMs (server i) = .error e)
    (hnc : isClientError e = false) :
    ∀ (fuel retries attempt made : Nat) (lastErr : Option Thrown) (delays : List Nat),
      attempt + fuel = retries →
      requestLoop retries timeoutMs server attempt (fuel + 1) lastErr made delays =
        { result := e.toResult, attempts := made + fuel + 1,
          delays := delays ++ backoffs attempt fuel } := by
  intro fuel
  induction fuel with
  | zero =>
    intro retries attempt made lastErr delays hinv
    have hr : retries = attempt := by omega
    subst hr
    simp [requestLoop, hall, hnc, backoffs]
  | succ k ih =>
    intro retries attempt made lastErr delays hinv
    have hne : (attempt == retries) = false := by
      rw [beq_eq_false_iff_ne]
      omega
    rw [requestLoop_retry_step retries timeoutMs (k + 1) made server attempt lastErr delays e
      (hall attempt) hnc hne]
    rw [ih retries (attempt + 1) (made + 1) (some e)
      (delays ++ [min (1000 * 2 ^ attempt) 10000]) (by omega)]
    rw [backoffs_succ]
    simp only [ExecTrace.mk.injEq, List.append_assoc, List.singleton_append, and_true, true_and]
    omega

theorem request_const_failure (c : HttpClient) (t : Option Nat) (server : Nat → AttemptOutcome)
    (e : Thrown)
    (hall : ∀ i, attemptResult (natOr t c.timeout) (server i) = .error e) :
    (c.request t server).result = e.toResult := by
  unfold HttpClient.request
  cases hc : isClientError e with
  | true =>
    rw [requestLoop_client_first c.retries (natOr t c.timeout) c.retries 0 server 0 none [] e
      (hall 0) hc]
  | false =>
    rw [requestLoop_retryable (natOr t c.timeout) server e hall hc c.retries c.retries 0 0 none []
      (by omega)]

theorem handleErrorResponse_statusCode (sc : Nat) (data : Json) :
    SdkError.statusCode (handleErrorResponse sc data) = some sc := by
  unfold handleErrorResponse
  split_ifs with h1 h2 h3 h4 h6 <;> simp_all [SdkError.statusCode]

theorem handleResponse_not_ok (r : Response) (h : r.ok = false) :
    ∃ e, handleResponse r = .error (.sdk e) ∧ SdkError.statusCode e = some r.status := by
  cases hb : r.body with
  | none =>
    refine ⟨.server r.status (.str ("HTTP " ++ toString r.status ++ ": " ++ r.statusText)),
      ?_, rfl⟩
    simp [handleResponse, hb, h]
  | some data =>
    exact ⟨handleErrorResponse r.status data, by simp [handleResponse, hb, h],
      handleErrorResponse_statusCode r.status data⟩

theorem isClientError_of_status (e : SdkError) (sc : Nat) (hsc : e.statusCode = some sc)
    (h0 : sc ≠ 0) (h5 : sc < 500) : isClientError (.sdk e) = true := by
  simp only [isClientError, hsc, Bool.and_eq_true, bne_iff_ne, ne_eq, decide_eq_true_eq]
  exact ⟨h0, h5⟩

theorem handleResponse_500 (r : Response) (h : r.status = 500) :
    ∃ m, handleResponse r = .error (.sdk (.server 500 m)) := by
  obtain ⟨st, sx, body⟩ := r
  simp only at h
  subst h
  cases body with
  | none => exact ⟨.str ("HTTP " ++ toString 500 ++ ": " ++ sx), rfl⟩
  | some data =>
    exact ⟨jsOr (data.getField "error") (jsOr (data.getField "message") (.str "Unknown error")),
      rfl⟩

theorem natOr_ne_zero (v : Option Nat) (d : Nat) (hd : d ≠ 0) : natOr v d ≠ 0 := by
  unfold natOr
  cases v with
  | none => exact hd
  | some n =>
    by_cases h : n = 0
    · simp [h, hd]
    · simp [h]

/-- C1 counterexample: with the default configuration (`retries = 3`, so retry
attempts remain after the first failure) a request whose first attempt times
out performs exactly one transport attempt and surfaces the `Timeout` error at
once — the claim says a `Timeout` with attempts remaining is retried rather
than raised immediately, but `TimeoutError` carries the synthetic status 408,
which the guard `error.statusCode && error.statusCode < 500` treats as a
non-retryable client error. -/
theorem timeout_not_retried_counterexample :
    (HttpClient.create "key" {}).retries = 3 ∧
      (HttpClient.create "key" {}).request none (fun _ => .abort) =
        { result := .err (.timeout 30000), attempts := 1, delays := [] } :=
  ⟨rfl, rfl⟩

/-- C1 (amended): a `Timeout` failure carries the synthetic status code 408,
which lies in `[400, 500)`, so the engine raises it immediately after the
attempt that timed out, without retrying; the retryable class contains only
`Network` failures (no status code) and failures with status `>= 500`. -/
theorem timeout_raised_immediately (c : HttpClient) (t : Option Nat)
    (server : Nat → AttemptOutcome) (h : server 0 = .abort) :
    c.request t server =
      { result := .err (.timeout (natOr t c.timeout)), attempts := 1, delays := [] } ∧
    isClientError (.sdk (.timeout (natOr t c.timeout))) = true ∧
    (∀ m, isClientError (.sdk (.network m)) = false) ∧
    (∀ sc m, 500 ≤ sc → isClientError (.sdk (.server sc m)) = false) := by
  refine ⟨?_, rfl, fun m => rfl, fun sc m h5 => ?_⟩
  · unfold HttpClient.request
    exact requestLoop_client_first c.retries (natOr t c.timeout) c.retries 0 server 0 none []
      (.sdk (.timeout (natOr t c.timeout))) (by rw [h]; rfl) rfl
  · simp only [isClientError, SdkError.statusCode]
    have hlt : decide (sc < 500) = false := decide_eq_false (by omega)
    rw [hlt, Bool.and_false]

theorem timeout_raised_immediately_witness :
    (HttpClient.create "key" {}).request (some 50) (fun _ => .abort) =
      { result := .err (.timeout 50), attempts := 1, delays := [] } :=
  (timeout_raised_immediately (HttpClient.create "key" {}) (some 50) (fun _ => .abort) rfl).1

/-- C2: for a server that responds with HTTP 500 on every attempt, `request`
performs exactly `retries + 1` transport attempts (attempt indices `0` through
`retries` inclusive) and then raises a `Server` error. -/
theorem always_500_retry_bound (c : HttpClient) (t : Option Nat) (r : Response)
    (h : r.status = 500) :
    ((c.request t (fun _ => .response r)).attempts = c.retries + 1) ∧
    ∃ m, (c.request t (fun _ => .response r)).result = .err (.server 500 m) := by
  obtain ⟨m, hm⟩ := handleResponse_500 r h
  have hnc : isClientError (.sdk (.server 500 m)) = false := rfl
  unfold HttpClient.request
  rw [requestLoop_retryable (natOr t c.timeout) (fun _ => .response r) (.sdk (.server 500 m))
    (fun _ => hm) hnc c.retries c.retries 0 0 none [] (by omega)]
  exact ⟨by simp, m, rfl⟩

theorem always_500_retry_bound_witness :
    ((HttpClient.create "key" {}).request none
        (fun _ => .response ⟨500, "Internal Server Error", some (.obj [])⟩)).attempts = 3 + 1 ∧
    ∃ m, ((HttpClient.create "key" {}).request none
        (fun _ => .response ⟨500, "Internal Server Error", some (.obj [])⟩)).result =
      .err (.server 500 m) :=
  always_500_retry_bound (HttpClient.create "key" {}) none
    ⟨500, "Internal Server Error", some (.obj [])⟩ rfl

/-- C3: a first attempt whose response status lies in `[400, 500)` is raised
immediately after exactly one transport attempt, with a classified error that
carries that status code; in particular a 404 with a decodable body raises
`NotFound` at once. -/
theorem client_error_no_retry (c : HttpClient) (t : Option Nat) (r : Response)
    (server : Nat → AttemptOutcome) (h0 : server 0 = .response r)
    (h4 : 400 ≤ r.status) (h5 : r.status < 500) :
    ((c.request t server).attempts = 1 ∧ (c.request t server).delays = [] ∧
      ∃ e, (c.request t server).result = .err e ∧ e.statusCode = some r.status) ∧
    (∀ data, r.status = 404 → r.body = some data →
      (c.request t server).result = .err (.notFound "Resource" none)) := by
  have hok : r.ok = false := by
    simp only [Response.ok, Bool.and_eq_false_iff, decide_eq_false_iff_not, not_le, not_lt]
    omega
  obtain ⟨e, he, hsc⟩ := handleResponse_not_ok r hok
  have hatt : attemptResult (natOr t c.timeout) (server 0) = .error (.sdk e) := by
    rw [h0]; exact he
  have hce : isClientError (.sdk e) = true :=
    isClientError_of_status e r.status hsc (by omega) h5
  have htrace : c.request t server = { result := .err e, attempts := 1, delays := [] } := by
    unfold HttpClient.request
    exact requestLoop_client_first c.retries (natOr t c.timeout) c.retries 0 server 0 none []
      (.sdk e) hatt hce
  refine ⟨⟨by rw [htrace], by rw [htrace], e, by rw [htrace], hsc⟩, ?_⟩
  intro data h404 hbody
  have hnf : handleResponse r = .error (.sdk (.notFound "Resource" none)) := by
    simp only [handleResponse, hbody, hok, h404]
    rfl
  have h2 := hnf.symm.trans he
  injection h2 with h3
  injection h3 with h7
  rw [htrace, ← h7]

theorem client_error_no_retry_witness :
    ((HttpClient.create "key" {}).request none
        (fun _ => .response ⟨404, "Not Found", some (.obj [])⟩)).attempts = 1 ∧
    ((HttpClient.create "key" {}).request none
        (fun _ => .response ⟨404, "Not Found", some (.obj [])⟩)).result =
      .err (.notFound "Resource" none) := by
  have h := client_error_no_retry (HttpClient.create "key" {}) none
    ⟨404, "Not Found", some (.obj [])⟩
    (fun _ => .response ⟨404, "Not Found", some (.obj [])⟩) rfl (by decide) (by decide)
  exact ⟨h.1.1, h.2 (.obj []) rfl rfl⟩

/-- C4: before every retry (and never before the first attempt) the engine
waits `min(1000 * 2^attempt, 10000)` milliseconds, where `attempt` is the
0-indexed index of the attempt that just failed: for a retryable failure on
every attempt the recorded delay sequence is exactly that formula over
attempt indices `0 .. retries - 1`. -/
theorem backoff_schedule (c : HttpClient) (t : Option Nat) (server : Nat → AttemptOutcome)
    (e : Thrown) (hall : ∀ i, attemptResult (natOr t c.timeout) (server i) = .error e)
    (hnc : isClientError e = false) :
    (c.request t server).delays =
      (List.range c.retries).map (fun a => min (1000 * 2 ^ a) 10000) := by
  unfold HttpClient.request
  rw [requestLoop_retryable (natOr t c.timeout) server e hall hnc c.retries c.retries 0 0 none []
    (by omega)]
  simp [backoffs]

theorem backoff_schedule_witness :
    ((HttpClient.create "key" { retries := some 5 }).request none
        (fun _ => .netFail "connection refused")).delays =
      [1000, 2000, 4000, 8000, 10000] := by
  have h := backoff_schedule (HttpClient.create "key" { retries := some 5 }) none
    (fun _ => .netFail "connection refused") (.sdk (.network "connection refused"))
    (fun _ => rfl) rfl
  rw [h]
  rfl

/-- C5 counterexample: a 404 response with an undecodable body makes the
engine raise a `Server` error carrying status code 404 — the claim that every
`Server` error raised by the engine has status `>= 500` is false, because the
decode-failure path builds `ServerError(response.status, ...)` for any non-ok
status. -/
theorem server_error_below_500_counterexample :
    (HttpClient.create "key" {}).request none
        (fun _ => .response ⟨404, "Not Found", none⟩) =
      { result := .err (.server 404 (.str "HTTP 404: Not Found")), attempts := 1, delays := [] } :=
  rfl

/-- C5 (amended): every `Server` error produced by classifying a decoded
error body (`handleErrorResponse`) carries a status `>= 500`, equal to the
response status; but a `Server` error produced by the decode-failure path
carries the raw response status, which may lie below 500. -/
theorem server_error_status_amended :
    (∀ sc data n m, handleErrorResponse sc data = SdkError.server n m → 500 ≤ n ∧ n = sc) ∧
    (∀ r : Response, r.ok = false → r.body = none →
      handleResponse r = .error (.sdk (.server r.status
        (.str ("HTTP " ++ toString r.status ++ ": " ++ r.statusText))))) := by
  constructor
  · intro sc data n m h
    simp only [handleErrorResponse] at h
    split_ifs at h with h1 h2 h3 h4 h5 h6
    injection h with hn hm
    omega
  · intro r hok hb
    simp [handleResponse, hb, hok]

theorem server_error_status_amended_witness :
    (500 ≤ 500 ∧ 500 = 500) ∧
    handleResponse ⟨404, "Not Found", none⟩ =
      .error (.sdk (.server 404 (.str "HTTP 404: Not Found"))) :=
  ⟨server_error_status_amended.1 500 (Json.obj []) 500 (.str "Unknown error") rfl,
    server_error_status_amended.2 ⟨404, "Not Found", none⟩ rfl rfl⟩

/-- C6 counterexample: a 2xx response whose body decodes to the JSON
primitive `5` does not make `request` return `5` unchanged — the
key-presence test `'success' in data` throws a `TypeError` on a primitive,
which the retry guard does not recognise as a client error, so the engine
retries it on every attempt and finally surfaces the raw `TypeError`
instead of returning the decoded value. -/
theorem envelope_primitive_body_counterexample :
    (HttpClient.create "key" {}).request none
        (fun _ => .response ⟨200, "OK", some (.num 5)⟩) =
      { result := .jsError, attempts := 4, delays := [1000, 2000, 4000] } :=
  rfl

/-- C6 (amended): on a 2xx response whose body decodes to a JSON object,
`request` returns the value of the `data` field when the object contains
both a `success` key and a `data` key, and otherwise returns the decoded
object unchanged; for a primitive decoded body the key-presence test
itself throws a `TypeError` (see the counterexample). -/
theorem envelope_unwrapping (c : HttpClient) (t : Option Nat) (server : Nat → AttemptOutcome)
    (r : Response) (fields : List (String × Json)) (h0 : server 0 = .response r)
    (hok : r.ok = true) (hb : r.body = some (.obj fields)) :
    c.request t server =
      { result := .ok (if (fields.any (fun kv => kv.1 == "success")) &&
            (fields.any (fun kv => kv.1 == "data")) then
          ((Json.obj fields).getField "data").getD .null
        else .obj fields),
        attempts := 1, delays := [] } := by
  have hres : handleResponse r = .ok (if (fields.any (fun kv => kv.1 == "success")) &&
      (fields.any (fun kv => kv.1 == "data")) then
        ((Json.obj fields).getField "data").getD .null
      else .obj fields) := by
    simp only [handleResponse, hb, hok, Bool.not_true, Bool.false_eq_true, if_false, jsMem]
    by_cases hs : fields.any (fun kv => kv.1 == "success") <;>
      by_cases hd : fields.any (fun kv => kv.1 == "data") <;>
        simp [hs, hd]
  unfold HttpClient.request
  exact requestLoop_ok_first c.retries (natOr t c.timeout) c.retries 0 server 0 none [] _
    (by rw [h0]; exact hres)

theorem envelope_unwrapping_witness :
    (HttpClient.create "key" {}).request none
        (fun _ => .response ⟨200, "OK",
          some (.obj [("success", .bool true), ("data", .obj [("x", .num 1)])])⟩) =
      { result := .ok (.obj [("x", .num 1)]), attempts := 1, delays := [] } ∧
    (HttpClient.create "key" {}).request none
        (fun _ => .response ⟨200, "OK", some (.obj [("x", .num 1)])⟩) =
      { result := .ok (.obj [("x", .num 1)]), attempts := 1, delays := [] } :=
  ⟨envelope_unwrapping (HttpClient.create "key" {}) none
      (fun _ => .response ⟨200, "OK",
        some (.obj [("success", .bool true), ("data", .obj [("x", .num 1)])])⟩)
      ⟨200, "OK", some (.obj [("success", .bool true), ("data", .obj [("x", .num 1)])])⟩
      [("success", .bool true), ("data", .obj [("x", .num 1)])] rfl rfl rfl,
    envelope_unwrapping (HttpClient.create "key" {}) none
      (fun _ => .response ⟨200, "OK", some (.obj [("x", .num 1)])⟩)
      ⟨200, "OK", some (.obj [("x", .num 1)])⟩ [("x", .num 1)] rfl rfl rfl⟩

/-- C7: when the response body fails to decode as JSON, `request` returns
the empty object after one attempt if the HTTP status is 2xx, and raises a
`Server` error built from the raw status text when the status indicates
failure; a decode failure on a successful status never raises. -/
theorem decode_failure_handling (c : HttpClient) (t : Option Nat) (r : Response)
    (hb : r.body = none) :
    (∀ server : Nat → AttemptOutcome, server 0 = .response r → r.ok = true →
      c.request t server = { result := .ok (.obj []), attempts := 1, delays := [] }) ∧
    (r.ok = false →
      (c.request t (fun _ => .response r)).result =
        .err (.server r.status (.str ("HTTP " ++ toString r.status ++ ": " ++ r.statusText)))) := by
  constructor
  · intro server h0 hok
    have hres : handleResponse r = .ok (.obj []) := by
      simp [handleResponse, hb, hok]
    unfold HttpClient.request
    exact requestLoop_ok_first c.retries (natOr t c.timeout) c.retries 0 server 0 none [] _
      (by rw [h0]; exact hres)
  · intro hok
    have hres : handleResponse r = .error (.sdk (.server r.status
        (.str ("HTTP " ++ toString r.status ++ ": " ++ r.statusText)))) := by
      simp [handleResponse, hb, hok]
    exact request_const_failure c t (fun _ => .response r)
      (.sdk (.server r.status (.str ("HTTP " ++ toString r.status ++ ": " ++ r.statusText))))
      (fun _ => hres)

theorem decode_failure_handling_witness :
    (HttpClient.create "key" {}).request none
        (fun _ => .response ⟨204, "No Content", none⟩) =
      { result := .ok (.obj []), attempts := 1, delays := [] } ∧
    ((HttpClient.create "key" {}).request none
        (fun _ => .response ⟨500, "Internal Server Error", none⟩)).result =
      .err (.server 500 (.str "HTTP 500: Internal Server Error")) :=
  ⟨(decode_failure_handling (HttpClient.create "key" {}) none ⟨204, "No Content", none⟩ rfl).1
      (fun _ => .response ⟨204, "No Content", none⟩) rfl rfl,
    (decode_failure_handling (HttpClient.create "key" {}) none
      ⟨500, "Internal Server Error", none⟩ rfl).2 rfl⟩

/-- C8: a 402 response whose decoded body lacks the `creditsRequired` and
`creditsRemaining` fields makes `request` raise `InsufficientCredits` with
`creditsRequired = 1` and `creditsRemaining = 0` after a single attempt;
the error is always constructed (the classifier is a total function), so a
missing credit field can never make its construction fail. -/
theorem insufficient_credits_defaults (c : HttpClient) (t : Option Nat)
    (server : Nat → AttemptOutcome) (r : Response) (data : Json)
    (h0 : server 0 = .response r) (hs : r.status = 402) (hb : r.body = some data)
    (hreq : data.getField "creditsRequired" = none)
    (hrem : data.getField "creditsRemaining" = none) :
    c.request t server =
      { result := .err (.insufficientCredits (.num 1) (.num 0)), attempts := 1, delays := [] } := by
  have hok : r.ok = false := by
    simp only [Response.ok, Bool.and_eq_false_iff, decide_eq_false_iff_not, not_le, not_lt]
    omega
  have herr : handleErrorResponse 402 data = .insufficientCredits (.num 1) (.num 0) := by
    simp [handleErrorResponse, hreq, hrem, jsOr]
  have hres : handleResponse r = .error (.sdk (.insufficientCredits (.num 1) (.num 0))) := by
    simp [handleResponse, hb, hok, hs, herr]
  unfold HttpClient.request
  exact requestLoop_client_first c.retries (natOr t c.timeout) c.retries 0 server 0 none []
    (.sdk (.insufficientCredits (.num 1) (.num 0))) (by rw [h0]; exact hres) rfl

theorem insufficient_credits_defaults_witness :
    (HttpClient.create "key" {}).request none
        (fun _ => .response ⟨402, "Payment Required", some (.obj [])⟩) =
      { result := .err (.insufficientCredits (.num 1) (.num 0)), attempts := 1, delays := [] } :=
  insufficient_credits_defaults (HttpClient.create "key" {}) none
    (fun _ => .response ⟨402, "Payment Required", some (.obj [])⟩)
    ⟨402, "Payment Required", some (.obj [])⟩ (.obj []) rfl rfl rfl rfl rfl

/-- C9 counterexample: `null` is a non-string key, yet constructing the
client with it raises `Validation` with message "API key is required", not
"API key must be a string" — the falsy check `if (!apiKey)` runs before the
`typeof` check, so every falsy non-string key gets the wrong message for
the claim as stated. -/
theorem construction_falsy_key_counterexample :
    JsValue.isString .null = false ∧
    Scrapebit.create .null {} = .error (.validation "API key is required" none) :=
  ⟨rfl, rfl⟩

/-- C9 (amended): constructing a client with the empty-string key raises
`Validation` with message "API key is required"; a truthy non-string key
raises `Validation` with message "API key must be a string"; a falsy key of
any type (empty string, null, undefined, false, 0) raises "API key is
required".  In every failure case the result carries no `HttpClient`, so
the error is raised synchronously before any engine instance exists and
before any network activity. -/
theorem construction_key_checks (config : ScrapebitConfig) :
    Scrapebit.create (.str "") config = .error (.validation "API key is required" none) ∧
    (∀ k : JsValue, k.truthy = true → k.isString = false →
      Scrapebit.create k config = .error (.validation "API key must be a string" none)) ∧
    (∀ k : JsValue, k.truthy = false →
      Scrapebit.create k config = .error (.validation "API key is required" none)) := by
  refine ⟨rfl, ?_, ?_⟩
  · intro k ht hs
    simp [Scrapebit.create, ht, hs]
  · intro k ht
    simp [Scrapebit.create, ht]

theorem construction_key_checks_witness :
    Scrapebit.create (.str "") {} = .error (.validation "API key is required" none) ∧
    Scrapebit.create (.num 42) {} = .error (.validation "API key must be a string" none) ∧
    Scrapebit.create .undef {} = .error (.validation "API key is required" none) :=
  ⟨(construction_key_checks {}).1, (construction_key_checks {}).2.1 (.num 42) rfl rfl,
    (construction_key_checks {}).2.2 .undef rfl⟩

/-- C10: a configured timeout of 0 falls back to the default 30000 ms and a
configured retry count of 0 falls back to the default 3; a per-call timeout
of 0 falls back to the client's configured timeout; and no configuration
can produce a zero timeout or a zero retry count. -/
theorem falsy_config_defaults :
    (∀ apiKey baseUrl headers,
      (HttpClient.create apiKey
          { baseUrl := baseUrl, timeout := some 0, retries := some 0,
            headers := headers }).timeout = 30000 ∧
      (HttpClient.create apiKey
          { baseUrl := baseUrl, timeout := some 0, retries := some 0,
            headers := headers }).retries = 3) ∧
    (∀ (c : HttpClient) (server : Nat → AttemptOutcome),
      c.request (some 0) server = c.request none server) ∧
    (∀ apiKey config, (HttpClient.create apiKey config).timeout ≠ 0 ∧
      (HttpClient.create apiKey config).retries ≠ 0) := by
  refine ⟨fun a b h => ⟨rfl, rfl⟩, fun c server => rfl, fun a config => ⟨?_, ?_⟩⟩
  · exact natOr_ne_zero config.timeout 30000 (by omega)
  · exact natOr_ne_zero config.retries 3 (by omega)
